import Mathlib

/-!
# Verification of the POS fiscal / non-fiscal printer protocol layer

Shallow embedding of the printer protocol core of the repository:

* `Codec` — the STX/ETX/XOR-checksum framing codec of
  `pos_it_fiscal_nonfiscal_printer/drivers/sf20_tcp.py`
  (`_compute_checksum`, `_frame_message`, `_parse_response`).
* `SF20Driver` — the stateless SF20 TCP driver of the same file
  (`_send_command` error surface, `sell_item` / `apply_payment`
  fixed-point encodings, the composite `print_receipt` sequence).
* `Adapter` — the stateful fiscal adapter of
  `it_epos_fiscal_nonfiscal_printer/services/fiscal_printer_service.py`
  (`SF20FiscalPrinterAdapter`: receipt state machine, status parsing).
* `Controller` — the composite receipt sequence of
  `it_epos_fiscal_nonfiscal_printer/controllers/printer_controller.py`
  (`fiscal_print_receipt` with its fail-safe policy).
* `Factory` — the adapter registry of
  `it_epos_fiscal_nonfiscal_printer/services/printer_factory.py`.
* `ESCPOS` — the non-fiscal comanda document builder of
  `it_epos_fiscal_nonfiscal_printer/services/nonfiscal_printer_service.py`.

Bytes are modelled as `Nat` (the Python code works on `bytes` values,
each element `< 256`); byte strings are `List Nat`.  Socket I/O is
abstracted by an explicit wire-outcome oracle: each call either yields
the accumulated response bytes or one of the exception classes the
Python code catches (`socket.timeout`, `socket.error`, a missing
connection).  Wall-clock measurements (`response_time_ms`) are outside
the embedding and omitted from the modelled status dictionaries.
-/

/-- Bytes of an ASCII string. Models Python `str.encode('utf-8')` for the
ASCII-only text the code produces (identical to UTF-8 on that range). -/
def strBytes (s : String) : List Nat := s.data.map Char.toNat

/-- Models Python `str.encode('ascii', errors='replace')`: every
non-ASCII character becomes one `?` (0x3F) byte. -/
def asciiReplace (s : String) : List Nat :=
  s.data.map (fun ch => if ch.toNat < 128 then ch.toNat else 63)

/-- Models Python `bytes.decode` restricted to the ASCII range: one
character per byte. -/
def decodeBytes (l : List Nat) : String := String.mk (l.map Char.ofNat)

/-- Models Python string slicing `s[:n]` (first `n` characters). -/
def strTake (s : String) (n : Nat) : String := String.mk (s.data.take n)

/-- Models Python `str.ljust(w)` (pad on the right with spaces). -/
def pyLjust (s : String) (w : Nat) : String :=
  s ++ String.mk (List.replicate (w - s.data.length) ' ')

/-- Models Python `int(q)`: truncation toward zero, applied to the exact
rational value of `q`.  The binary64 rounding of the Python float that
carries the value is *not* modelled: the real float pipeline can only be
less accurate than this (e.g. `0.29 * 100 == 28.999999999999996` in
Python, so `int(0.29 * 100) == 28` where the exact product is 29). -/
def pyInt (q : Rat) : Int := q.num.tdiv q.den

/-- Is `pat` a prefix of `l`? (`bytes.startswith`-style helper used to
model Python substring containment.) -/
def seqPrefixOf : List Nat → List Nat → Bool
  | [], _ => true
  | _ :: _, [] => false
  | a :: as, b :: bs => a = b && seqPrefixOf as bs

/-- Does `pat` occur contiguously inside `l`?  Models Python
`pat in data` on `bytes` values. -/
def containsSeq (pat : List Nat) : List Nat → Bool
  | [] => seqPrefixOf pat []
  | l@(_ :: rest) => seqPrefixOf pat l || containsSeq pat rest

/-- Drop leading bytes until `pat` occurs as a prefix.  Models
`data[data.find(pat):]` when `pat` is known to occur. -/
def dropUntilSeq (pat : List Nat) : List Nat → List Nat
  | [] => []
  | l@(_ :: rest) => if seqPrefixOf pat l then l else dropUntilSeq pat rest

/-- Big-endian 4-byte encoding of a (in-range) integer, the byte image of
Python `struct.pack('>I', n)`. -/
def u32be (n : Int) : List Nat :=
  [n.toNat / 2 ^ 24 % 256, n.toNat / 2 ^ 16 % 256, n.toNat / 2 ^ 8 % 256, n.toNat % 256]

/-- Models Python `struct.pack('>I', n)`: `none` when the value is out of
the `uint32` range (Python raises `struct.error` there). -/
def packU32BE (n : Int) : Option (List Nat) :=
  if 0 ≤ n ∧ n < 2 ^ 32 then some (u32be n) else none

namespace Codec

/-! ## Framing codec (`sf20_tcp.py` module-level functions) -/

def STX : Nat := 0x02
def ETX : Nat := 0x03

/-- `_compute_checksum`: XOR fold of the data bytes. -/
def computeChecksum (data : List Nat) : Nat := data.foldl Nat.xor 0

/-- `_frame_message`: `STX + CMD + PAYLOAD + CHECKSUM + ETX` where the
checksum covers `CMD + PAYLOAD`. -/
def frameMessage (command : Nat) (payload : List Nat) : List Nat :=
  STX :: ((command :: payload) ++ [computeChecksum (command :: payload), ETX])

/-- Result dictionary shapes returned by `_parse_response`. -/
inductive ParseResult
  | tooShort (raw : List Nat)
  | invalidFraming (raw : List Nat)
  | checksumMismatch (expected received : Nat) (raw : List Nat)
  | ok (command : Nat) (payload : List Nat) (raw : List Nat)
deriving DecidableEq

/-- `_parse_response`: length / framing / checksum checks, then the
command byte `data[1]` and the payload `data[2:-2]`. -/
def parseResponse (data : List Nat) : ParseResult :=
  if data.length < 4 then .tooShort data
  else if ¬(data.head? = some STX ∧ data.getLast? = some ETX) then .invalidFraming data
  else
    let command := (data.drop 1).headD 0
    let payload := (data.drop 2).dropLast.dropLast
    let received := data.dropLast.getLastD 0
    let expected := computeChecksum ((data.drop 1).dropLast.dropLast)
    if received ≠ expected then .checksumMismatch expected received data
    else .ok command payload data

end Codec

namespace SF20Driver

/-! ## SF20 TCP driver (`sf20_tcp.py`, class `SF20Driver`)

Socket interaction is abstracted by `DWire`: one value per `_send_command`
call describing what the transport did (a response accumulated up to ETX,
a `socket.timeout`, a `socket.error`, or another exception). -/

def CMD_OPEN_RECEIPT : Nat := 0x30
def CMD_SELL_ITEM : Nat := 0x31
def CMD_SUBTOTAL : Nat := 0x32
def CMD_PAYMENT : Nat := 0x33
def CMD_CLOSE_RECEIPT : Nat := 0x34
def CMD_STATUS : Nat := 0x35
def CMD_CANCEL : Nat := 0x36

/-- Transport outcome of one `_send_command` call. -/
inductive DWire
  | resp (data : List Nat)
  | timeout
  | sockErr (msg : String)
  | exc (msg : String)
deriving DecidableEq

/-- The result dictionary of `_send_command`: the fields `success`,
`error`, `canRetry`, `command`, `payload` (absent keys are `none`). -/
structure DOut where
  success : Bool
  error : Option String
  canRetry : Option Bool
  command : Option Nat
  payload : Option (List Nat)
deriving DecidableEq

/-- How `_parse_response`'s dictionary surfaces through `_send_command`. -/
def dictOfParse : Codec.ParseResult → DOut
  | .tooShort _ => ⟨false, some "response_too_short", none, none, none⟩
  | .invalidFraming _ => ⟨false, some "invalid_framing", none, none, none⟩
  | .checksumMismatch _ _ _ => ⟨false, some "checksum_mismatch", none, none, none⟩
  | .ok c p _ => ⟨true, none, none, some c, some p⟩

/-- `SF20Driver._send_command`: parse the accumulated response on success;
`socket.timeout` and `socket.error` yield `canRetry=True`, any other
exception `canRetry=False`. -/
def sendCommand (_command : Nat) (_payload : List Nat) (w : DWire) : DOut :=
  match w with
  | .resp d => dictOfParse (Codec.parseResponse d)
  | .timeout => ⟨false, some "timeout", some true, none, none⟩
  | .sockErr e => ⟨false, some ("socket_error: " ++ e), some true, none, none⟩
  | .exc e => ⟨false, some e, some false, none, none⟩

/-- `sell_item`: `int(quantity * 1000)` (fixed point, 3 decimals).  The
program multiplies binary64 floats; here the product is exact, so this
definition is an upper bound on the program's accuracy, never a proof of
its exactness. -/
def sellItemQuantityInt (quantity : Rat) : Int := pyInt (quantity * 1000)

/-- `sell_item`: `int(price * 100)` (cents).  Same caveat as
`sellItemQuantityInt`: the program's float product can fall below the
exact value (`int(0.29 * 100) == 28` in Python, this model gives 29), so
no exactness of the program may be read off this definition. -/
def sellItemPriceInt (price : Rat) : Int := pyInt (price * 100)

/-- Pad a byte string on the right with spaces, Python `bytes.ljust`. -/
def bytesLjust (l : List Nat) (w : Nat) : List Nat :=
  l ++ List.replicate (w - l.length) 32

/-- The `sell_item` wire payload:
`description(32, space-padded) + pack('>I', int(q*1000)) +
pack('>I', int(p*100)) + pack('B', department) + vat[:2].ljust(2)`.
`none` models the exceptions `struct.pack` / strict `.encode('ascii')`
raise on out-of-range or non-ASCII input. -/
def sellItemData (description : String) (quantity price : Rat)
    (department : Nat) (vat : String) : Option (List Nat) :=
  let desc := pyLjust (strTake description 32) 32
  match packU32BE (sellItemQuantityInt quantity), packU32BE (sellItemPriceInt price) with
  | some qb, some pb =>
    if department < 256 ∧ vat.data.all (fun c => c.toNat < 128) then
      some (asciiReplace desc ++ qb ++ pb ++ [department] ++
        bytesLjust ((strBytes vat).take 2) 2)
    else none
  | _, _ => none

/-- `apply_payment`'s method table: `payment_types.get(method, 0)` —
every unrecognized method falls back to 0, the cash code. -/
def paymentTypes (method : String) : Nat :=
  if method = "cash" then 0
  else if method = "card" then 1
  else if method = "check" then 2
  else if method = "ticket" then 3
  else if method = "other" then 4
  else 0

/-- The `apply_payment` wire payload:
`pack('>I', int(amount*100)) + pack('B', payment_code)`, with the method
defaulted to `'cash'` when absent. -/
def applyPaymentData (amount : Rat) (method : Option String) : Option (List Nat) :=
  (packU32BE (pyInt (amount * 100))).map
    (fun ab => ab ++ [paymentTypes (method.getD "cash")])

/-- An `apply_payment` run: the `(command, data)` pairs handed to
`_send_command` and the transport result. -/
structure PayOut where
  sent : List (Nat × List Nat)
  result : DOut
deriving DecidableEq

/-- `apply_payment`: build the payload, then send `CMD_PAYMENT` with it.
`none` models the `struct.pack` exception on an out-of-range amount. -/
def applyPayment (amount : Rat) (method : Option String) (w : DWire) : Option PayOut :=
  (applyPaymentData amount method).map
    (fun data => ⟨[(CMD_PAYMENT, data)], sendCommand CMD_PAYMENT data w⟩)

/-- Sub-calls made by the composite `print_receipt` sequence. -/
inductive FCall
  | openR
  | sell
  | pay
  | closeR
  | cancel
deriving DecidableEq

/-- One pass over the `lines` (or `payments`) list of `print_receipt`:
process entries until the first failing one, recording one call per
processed entry; a failure stops the loop. -/
def stepLoop (tag : FCall) : List Bool → Bool × List FCall
  | [] => (true, [])
  | ok :: rest =>
    if ok then
      let r := stepLoop tag rest
      (r.1, tag :: r.2)
    else (false, [tag])

/-- `SF20Driver.print_receipt`: open → each item → each payment → close;
an item or payment failure cancels the receipt and aborts; a failure to
open or close aborts without cancelling.  Each sub-call's success is
given by the corresponding oracle entry; the returned string is the
`status` field of the result dictionary, alongside the call trace. -/
def printReceipt (openOk : Bool) (lineOks payOks : List Bool) (closeOk : Bool) :
    String × List FCall :=
  if !openOk then ("error", [.openR])
  else
    let ls := stepLoop .sell lineOks
    if !ls.1 then ("error", .openR :: ls.2 ++ [.cancel])
    else
      let ps := stepLoop .pay payOks
      if !ps.1 then ("error", .openR :: ls.2 ++ ps.2 ++ [.cancel])
      else if !closeOk then ("error", .openR :: ls.2 ++ ps.2 ++ [.closeR])
      else ("ok", .openR :: ls.2 ++ ps.2 ++ [.closeR])

end SF20Driver

namespace Adapter

/-! ## Stateful fiscal adapter
(`fiscal_printer_service.py`, class `SF20FiscalPrinterAdapter`)

`current_state` is the Python string attribute; each lifecycle operation
maps the pre-state and a wire outcome to a result pair
`(success, message)`, the post-state, and the list of commands handed to
`_send_command` (empty when the state guard rejects the call before any
communication). -/

def STATE_INIT : String := "init"
def STATE_RECEIPT_OPEN : String := "receipt_open"
def STATE_RECEIPT_CLOSED : String := "receipt_closed"
def STATE_Z_REQUIRED : String := "z_report_required"
def STATE_MEMORY_FULL : String := "memory_full"
def STATE_ERROR : String := "error"

def SF20_CMD_STATUS : List Nat := [0x1B, 0x6E]
def SF20_CMD_RECEIPT_OPEN : List Nat := [0x1B, 0x47]
def SF20_CMD_RECEIPT_CLOSE : List Nat := [0x1B, 0x43]
def SF20_CMD_ITEM : List Nat := [0x1B, 0x4A]
def SF20_CMD_PAYMENT : List Nat := [0x1B, 0x50]
def SF20_CMD_Z_REPORT : List Nat := [0x1B, 0x5A]

/-- Transport outcome of one `_send_command` call of the adapter. -/
inductive Wire
  | resp (data : List Nat)
  | timeout
  | sockErr (msg : String)
  | notConnected
deriving DecidableEq

/-- `SF20FiscalPrinterAdapter._send_command`: returns the response bytes,
or raises (modelled as `Except.error` with the exception's message). -/
def sendCommand : Wire → Except String (List Nat)
  | .notConnected => .error "Not connected to fiscal printer"
  | .timeout => .error "Timeout waiting for response"
  | .sockErr e => .error ("Communication error: " ++ e)
  | .resp d => .ok d

/-- `_is_success_response`: non-empty and containing `b'OK'` or the ACK
byte `0x06`. -/
def isSuccessResponse (r : List Nat) : Bool :=
  !r.isEmpty && (containsSeq (strBytes "OK") r || containsSeq [0x06] r)

/-- `_parse_error_response`: 50 bytes starting at the first `b'ERROR'`
occurrence, otherwise a fixed message. -/
def parseErrorResponse (r : List Nat) : String :=
  if containsSeq (strBytes "ERROR") r then
    decodeBytes ((dropUntilSeq (strBytes "ERROR") r).take 50)
  else "Unknown error"

def isDigitByte (b : Nat) : Bool := 48 ≤ b && b ≤ 57

/-- `_parse_receipt_number`: first run of (at most 10) decimal digits in
the response, `'UNKNOWN'` when there is none. -/
def parseReceiptNumber (r : List Nat) : String :=
  match r.dropWhile (fun b => !isDigitByte b) with
  | [] => "UNKNOWN"
  | ds => decodeBytes ((ds.takeWhile isDigitByte).take 10)

/-- The status dictionary of `get_status` / `_parse_status_response`
(the wall-clock `response_time_ms` field is outside the embedding). -/
structure StatusOut where
  state : String
  ready : Bool
  error_code : Option String
  receipts_today : Nat
deriving DecidableEq

/-- `_parse_status_response`: marker-substring driven, defaulting to the
`init` state with `ready=False` for unrecognized payloads. -/
def parseStatusResponse (r : List Nat) : StatusOut :=
  if containsSeq (strBytes "READY") r then ⟨STATE_RECEIPT_CLOSED, true, none, 0⟩
  else if containsSeq (strBytes "RECEIPT_OPEN") r then ⟨STATE_RECEIPT_OPEN, true, none, 0⟩
  else if containsSeq (strBytes "Z_REQUIRED") r then ⟨STATE_Z_REQUIRED, false, none, 0⟩
  else if containsSeq (strBytes "MEMORY_FULL") r then ⟨STATE_MEMORY_FULL, false, none, 0⟩
  else if containsSeq (strBytes "ERROR") r then
    ⟨STATE_ERROR, false, some (parseErrorResponse r), 0⟩
  else ⟨STATE_INIT, false, none, 0⟩

/-- `get_status`: parse the response; any exception is caught and mapped
to the `error` state with `ready=False` and the exception text as
`error_code`. -/
def getStatus (w : Wire) : StatusOut :=
  match sendCommand w with
  | .error e => ⟨STATE_ERROR, false, some e, 0⟩
  | .ok r => parseStatusResponse r

/-- Outcome of one adapter lifecycle operation: the `(success, message)`
pair it returns, the adapter's `current_state` afterwards, and the
commands handed to `_send_command` during the call. -/
structure OpOut where
  ok : Bool
  msg : String
  state : String
  sent : List (List Nat)
deriving DecidableEq

/-- `open_receipt`: rejected while a receipt is open; transitions to
`receipt_open` only on a success acknowledgement. -/
def openReceipt (st : String) (w : Wire) : OpOut :=
  if st = STATE_RECEIPT_OPEN then ⟨false, "Receipt already open", st, []⟩
  else
    match sendCommand w with
    | .error e => ⟨false, "Error opening receipt on SF20: " ++ e, st, [SF20_CMD_RECEIPT_OPEN]⟩
    | .ok r =>
      if isSuccessResponse r then
        ⟨true, "Receipt opened", STATE_RECEIPT_OPEN, [SF20_CMD_RECEIPT_OPEN]⟩
      else
        ⟨false, "Failed to open receipt: " ++ parseErrorResponse r, st, [SF20_CMD_RECEIPT_OPEN]⟩

/-- `add_item`: `int(quantity * 100)` — the adapter scales the quantity
by 100, not 1000.  Exact-rational product, same caveat as the driver's
conversions: the program's float arithmetic can only be less accurate. -/
def addItemQuantityCents (quantity : Rat) : Int := pyInt (quantity * 100)

/-- `add_item`: `int(unit_price * 100)` (cents).  Exact-rational product,
same caveat as the driver's conversions. -/
def addItemPriceCents (price : Rat) : Int := pyInt (price * 100)

/-- `_encode_item`: the simplified encoding sends only the first 40 bytes
of the description; quantity, price and tax are dropped. -/
def encodeItem (description : String) : List Nat := (strBytes description).take 40

/-- `add_item`: requires `receipt_open`; never changes the state. -/
def addItem (st : String) (description : String)
    (quantity unit_price tax_percent : Rat) (w : Wire) : OpOut :=
  if st ≠ STATE_RECEIPT_OPEN then ⟨false, "No receipt open", st, []⟩
  else
    let desc := strTake description 40
    let _quantity_cents := addItemQuantityCents quantity
    let _price_cents := addItemPriceCents unit_price
    let _tax_int := pyInt tax_percent
    let _item_data := encodeItem desc
    match sendCommand w with
    | .error e => ⟨false, "Error adding item to SF20: " ++ e, st, [SF20_CMD_ITEM]⟩
    | .ok r =>
      if isSuccessResponse r then ⟨true, "Item registered", st, [SF20_CMD_ITEM]⟩
      else ⟨false, "Failed to register item: " ++ parseErrorResponse r, st, [SF20_CMD_ITEM]⟩

/-- `_encode_payment_type`: 1=cash, 2=card, 3=check, 4=other,
defaulting to the cash code. -/
def encodePaymentType (t : String) : Nat :=
  if t.toLower = "cash" then 1
  else if t.toLower = "card" then 2
  else if t.toLower = "check" then 3
  else if t.toLower = "other" then 4
  else 1

/-- `_encode_payment`: `bytes([payment_code]) + amount.to_bytes(4, 'big')`;
`none` models the `OverflowError` on an out-of-range amount. -/
def encodePayment (code : Nat) (cents : Int) : Option (List Nat) :=
  if 0 ≤ cents ∧ cents < 2 ^ 32 then some (code :: u32be cents) else none

/-- `process_payment`: requires `receipt_open`; never changes the state. -/
def processPayment (st : String) (ptype : String) (amount : Rat) (w : Wire) : OpOut :=
  if st ≠ STATE_RECEIPT_OPEN then ⟨false, "No receipt open", st, []⟩
  else
    let cents := pyInt (amount * 100)
    let code := encodePaymentType ptype
    match encodePayment code cents with
    | none => ⟨false, "Error processing payment on SF20: int too big to convert", st, []⟩
    | some _data =>
      match sendCommand w with
      | .error e => ⟨false, "Error processing payment on SF20: " ++ e, st, [SF20_CMD_PAYMENT]⟩
      | .ok r =>
        if isSuccessResponse r then ⟨true, "Payment processed", st, [SF20_CMD_PAYMENT]⟩
        else ⟨false, "Failed to process payment: " ++ parseErrorResponse r, st, [SF20_CMD_PAYMENT]⟩

/-- `close_receipt`: requires `receipt_open`; transitions to
`receipt_closed` only on a success acknowledgement, returning the parsed
receipt number as the message. -/
def closeReceipt (st : String) (w : Wire) : OpOut :=
  if st ≠ STATE_RECEIPT_OPEN then ⟨false, "No receipt open", st, []⟩
  else
    match sendCommand w with
    | .error e => ⟨false, "Error closing receipt on SF20: " ++ e, st, [SF20_CMD_RECEIPT_CLOSE]⟩
    | .ok r =>
      if isSuccessResponse r then
        ⟨true, parseReceiptNumber r, STATE_RECEIPT_CLOSED, [SF20_CMD_RECEIPT_CLOSE]⟩
      else
        ⟨false, "Failed to close receipt: " ++ parseErrorResponse r, st, [SF20_CMD_RECEIPT_CLOSE]⟩

/-- `execute_z_report`: rejected while a receipt is open; never changes
the state. -/
def executeZReport (st : String) (w : Wire) : OpOut :=
  if st = STATE_RECEIPT_OPEN then
    ⟨false, "Cannot execute Z report while receipt is open", st, []⟩
  else
    match sendCommand w with
    | .error e => ⟨false, "Error executing Z report on SF20: " ++ e, st, [SF20_CMD_Z_REPORT]⟩
    | .ok r =>
      if isSuccessResponse r then
        ⟨true, "Z report executed successfully", st, [SF20_CMD_Z_REPORT]⟩
      else
        ⟨false, "Z report execution failed: " ++ parseErrorResponse r, st, [SF20_CMD_Z_REPORT]⟩

end Adapter

namespace Controller

/-! ## Controller composite receipt sequence
(`printer_controller.py`, `PrinterController.fiscal_print_receipt`)

The adapter calls are abstracted by per-call outcome oracles: one
`(success, message)` pair per `add_item` / `process_payment` call, one
for `open_receipt` and one for `close_receipt` (whose second component is
the receipt number on success, the error text otherwise). -/

/-- The JSON result of `fiscal_print_receipt` (the `fail_safe_triggered`
key, present only in the fail-safe close branch, is modelled as a flag
that is `false` elsewhere). -/
structure CtrlResult where
  success : Bool
  message : String
  receipt_number : Option String
  fail_safe_triggered : Bool
deriving DecidableEq

/-- One pass over the items (or payments) of `fiscal_print_receipt`:
a failing call aborts with its message unless `fail_safe` is set, in
which case the loop simply continues. -/
def ctrlLoop (failSafe : Bool) (tag : SF20Driver.FCall) :
    List (Bool × String) → Option String × List SF20Driver.FCall
  | [] => (none, [])
  | (ok, msg) :: rest =>
    if !ok && !failSafe then (some msg, [tag])
    else
      let r := ctrlLoop failSafe tag rest
      (r.1, tag :: r.2)

/-- `fiscal_print_receipt`'s receipt-processing sequence: open receipt,
add each item, process each payment, close receipt.  With
`fail_safe=False` the first failing call aborts with an error result;
with `fail_safe=True` item/payment failures are skipped and a close
failure yields a soft success carrying `fail_safe_triggered=True`.
No branch ever issues a cancel call. -/
def fiscalPrintReceipt (failSafe : Bool) (openRes : Bool × String)
    (itemRes payRes : List (Bool × String)) (closeRes : Bool × String) :
    CtrlResult × List SF20Driver.FCall :=
  if !openRes.1 then
    (⟨false, "Failed to open receipt: " ++ openRes.2, none, false⟩, [.openR])
  else
    let items := ctrlLoop failSafe .sell itemRes
    match items.1 with
    | some msg =>
      (⟨false, "Item registration failed: " ++ msg, none, false⟩, .openR :: items.2)
    | none =>
      let pays := ctrlLoop failSafe .pay payRes
      match pays.1 with
      | some msg =>
        (⟨false, "Payment failed: " ++ msg, none, false⟩, .openR :: items.2 ++ pays.2)
      | none =>
        if !closeRes.1 then
          if failSafe then
            (⟨true, "Receipt processed (printer error, fail-safe mode)", some "ERROR", true⟩,
              .openR :: items.2 ++ pays.2 ++ [.closeR])
          else
            (⟨false, "Failed to close receipt: " ++ closeRes.2, none, false⟩,
              .openR :: items.2 ++ pays.2 ++ [.closeR])
        else
          (⟨true, "Receipt printed successfully", some closeRes.2, false⟩,
            .openR :: items.2 ++ pays.2 ++ [.closeR])

end Controller

namespace Factory

/-! ## Printer adapter registry (`printer_factory.py`, `PrinterFactory`)

Python object identity is modelled by a unique id stamped on each newly
constructed adapter; the class-level `_fiscal_instances` dict is an
association list from key strings to adapters.  The fiscal half of the
registry is modelled (the non-fiscal half is structurally identical).
`disconnect` additionally closes the adapter's socket, which is outside
the registry state. -/

/-- A constructed `SF20FiscalPrinterAdapter`, with an identity stamp. -/
structure FAdapter where
  uid : Nat
  ip : String
  port : Int
  timeout : Int
deriving DecidableEq

/-- The class-level registry state. -/
structure FactoryState where
  entries : List (String × FAdapter)
  nextUid : Nat
deriving DecidableEq

/-- The cache key `f'fiscal_{pos_config_id}'`. -/
def fiscalKey (posConfigId : Nat) : String := "fiscal_" ++ toString posConfigId

/-- Dictionary lookup. -/
def dictGet (k : String) : List (String × FAdapter) → Option FAdapter
  | [] => none
  | (k', a) :: rest => if k' = k then some a else dictGet k rest

/-- Dictionary deletion (`del d[k]`): removes the binding of `k`. -/
def dictDel (k : String) : List (String × FAdapter) → List (String × FAdapter)
  | [] => []
  | (k', a) :: rest => if k' = k then rest else (k', a) :: dictDel k rest

/-- `create_fiscal_printer`: return the cached adapter when one exists
(the new call's parameters are ignored), otherwise construct, register
and return a fresh one. -/
def createFiscal (s : FactoryState) (posConfigId : Nat)
    (ip : String) (port timeout : Int) : FAdapter × FactoryState :=
  match dictGet (fiscalKey posConfigId) s.entries with
  | some a => (a, s)
  | none =>
    let a : FAdapter := ⟨s.nextUid, ip, port, timeout⟩
    (a, ⟨(fiscalKey posConfigId, a) :: s.entries, s.nextUid + 1⟩)

/-- `get_fiscal_printer`: pure cache lookup. -/
def getFiscal (s : FactoryState) (posConfigId : Nat) : Option FAdapter :=
  dictGet (fiscalKey posConfigId) s.entries

/-- `disconnect_fiscal_printer`: delete the entry when present (after
disconnecting the adapter), no-op when absent. -/
def disconnectFiscal (s : FactoryState) (posConfigId : Nat) : FactoryState :=
  match dictGet (fiscalKey posConfigId) s.entries with
  | some _ => ⟨dictDel (fiscalKey posConfigId) s.entries, s.nextUid⟩
  | none => s

end Factory

namespace ESCPOS

/-! ## Non-fiscal comanda document builder
(`nonfiscal_printer_service.py`, `ESCPOSPrinterAdapter`) -/

def ESC : Nat := 0x1B
def GS : Nat := 0x1D
def LF : List Nat := [0x0A]
def CMD_INIT : List Nat := [0x1B, 0x40]
def CMD_ALIGN_LEFT : List Nat := [0x1B, 0x61, 0x00]
def CMD_ALIGN_CENTER : List Nat := [0x1B, 0x61, 0x01]
def CMD_BOLD_ON : List Nat := [0x1B, 0x45, 0x01]
def CMD_BOLD_OFF : List Nat := [0x1B, 0x45, 0x00]
def CMD_SIZE_NORMAL : List Nat := [0x1B, 0x21, 0x00]
def CMD_SIZE_DOUBLE : List Nat := [0x1B, 0x21, 0x30]

/-- One order line of a comanda (`items` entry of `order_data`; a missing
`notes` key defaults to the empty string, as in the builder). -/
structure ComandaItem where
  description : String
  quantity : Rat
  notes : String
deriving DecidableEq

/-- The `order_data` dictionary (optional keys as options). -/
structure ComandaOrder where
  header : Option String
  order_number : Option String
  table : Option String
  timestamp : Option String
  items : List ComandaItem
  footer : Option String
deriving DecidableEq

/-- Round half to even, the rounding Python's fixed-point formatting
applies (exact for the decimal quantities the orders carry). -/
def roundHalfEven (q : Rat) : Int :=
  let f := ⌊q⌋
  let r := q - (f : Rat)
  if r < 1/2 then f
  else if 1/2 < r then f + 1
  else if f % 2 = 0 then f else f + 1

/-- Python `f'{qty:.0f}'`: the quantity rendered with no decimals. -/
def pyFormatF0 (q : Rat) : String := toString (roundHalfEven q)

/-- `_separator_line`: a dash per character of printer width. -/
def separatorLine (width : Nat) : String := String.mk (List.replicate width '-')

/-- The item block of the comanda: per item, `'<qty>x <description>'`
truncated to the width, then, when non-empty, the notes indented by two
spaces and truncated likewise. -/
def itemLines (width : Nat) : List ComandaItem → List Nat
  | [] => []
  | item :: rest =>
    let qtyStr := pyFormatF0 item.quantity ++ "x"
    let itemText := qtyStr ++ " " ++ item.description
    (strBytes itemText).take width ++ LF ++
      (if item.notes ≠ "" then (strBytes ("  " ++ item.notes)).take width ++ LF else []) ++
      itemLines width rest

/-- `_build_comanda_document`: init/center, double-size bold header,
separator, left-aligned order info, separator, bold `Items` label, item
lines with notes, separator, optional centered footer, and three blank
lines for tear-off. -/
def buildComandaDocument (width : Nat) (order : ComandaOrder) : List Nat :=
  CMD_INIT ++ CMD_ALIGN_CENTER ++
  CMD_SIZE_DOUBLE ++ CMD_BOLD_ON ++
  strBytes (order.header.getD "COMANDA") ++ LF ++
  CMD_BOLD_OFF ++ CMD_SIZE_NORMAL ++
  strBytes (separatorLine width) ++ LF ++
  CMD_ALIGN_LEFT ++
  strBytes ("Order: " ++ order.order_number.getD "???") ++ LF ++
  (match order.table with
   | some t => if t ≠ "" then strBytes ("Table: " ++ t) ++ LF else []
   | none => []) ++
  (match order.timestamp with
   | some ts => if ts ≠ "" then strBytes ("Time: " ++ ts) ++ LF else []
   | none => []) ++
  strBytes (separatorLine width) ++ LF ++
  CMD_BOLD_ON ++
  (strBytes (pyLjust "Items" width)).take width ++ LF ++
  CMD_BOLD_OFF ++
  itemLines width order.items ++
  strBytes (separatorLine width) ++ LF ++
  (match order.footer with
   | some f => if f ≠ "" then CMD_ALIGN_CENTER ++ strBytes f ++ LF else []
   | none => []) ++
  LF ++ LF ++ LF

/-- The concrete kitchen order of the specification's document-builder
scenario: header `COMANDA`, one `Pizza` line of quantity 2 with the note
`no onion`. -/
def exampleComanda : ComandaOrder :=
  ⟨some "COMANDA", none, none, none, [⟨"Pizza", 2, "no onion"⟩], none⟩

/-- Strip the fixed ESC/POS command sequences the builder emits, leaving
printable text and line feeds (used to state line-width properties). -/
def stripCmds : List Nat → List Nat
  | [] => []
  | 0x1B :: 0x40 :: rest => stripCmds rest
  | 0x1B :: 0x61 :: _ :: rest => stripCmds rest
  | 0x1B :: 0x45 :: _ :: rest => stripCmds rest
  | 0x1B :: 0x21 :: _ :: rest => stripCmds rest
  | b :: rest => b :: stripCmds rest

/-- Split a byte stream at line feeds. -/
def splitLF : List Nat → List (List Nat)
  | [] => [[]]
  | 0x0A :: rest => [] :: splitLF rest
  | b :: rest =>
    match splitLF rest with
    | [] => [[b]]
    | h :: t => (b :: h) :: t

end ESCPOS

section ListHelpers

variable {α : Type}

theorem append_two (l : List α) (a b : α) : l ++ [a, b] = (l ++ [a]) ++ [b] := by
  simp

theorem getLast?_append_two (l : List α) (a b : α) :
    (l ++ [a, b]).getLast? = some b := by
  rw [append_two]; exact List.getLast?_concat _

theorem dropLast_append_two (l : List α) (a b : α) :
    (l ++ [a, b]).dropLast.dropLast = l := by
  rw [append_two, List.dropLast_concat, List.dropLast_concat]

theorem dropLast_getLastD_append_two (l : List α) (a b d : α) :
    (l ++ [a, b]).dropLast.getLastD d = a := by
  rw [append_two, List.dropLast_concat]
  exact List.getLastD_concat _ _ _

theorem getLast?_cons_cons_append_two (x y : α) (l : List α) (a b : α) :
    (x :: y :: (l ++ [a, b])).getLast? = some b := by
  have h : x :: y :: (l ++ [a, b]) = (x :: y :: l) ++ [a, b] := rfl
  rw [h]; exact getLast?_append_two _ _ _

theorem dropLast_cons_append_two (y : α) (l : List α) (a b : α) :
    (y :: (l ++ [a, b])).dropLast.dropLast = y :: l := by
  have h : y :: (l ++ [a, b]) = (y :: l) ++ [a, b] := rfl
  rw [h]; exact dropLast_append_two _ _ _

theorem dropLast_getLastD_cons_cons (x y : α) (l : List α) (a b d : α) :
    (x :: y :: (l ++ [a, b])).dropLast.getLastD d = a := by
  have h : x :: y :: (l ++ [a, b]) = (x :: y :: l) ++ [a, b] := rfl
  rw [h]; exact dropLast_getLastD_append_two _ _ _ _

end ListHelpers

theorem frameMessage_eq (cmd : Nat) (s : List Nat) :
    Codec.frameMessage cmd s
      = (2 :: cmd :: s) ++ [Codec.computeChecksum (cmd :: s), 3] := rfl

/-- **C1.** Framing then parsing round-trips: for every command byte and
byte payload, `_parse_response (_frame_message cmd s)` succeeds with the
same command and payload; and every produced frame starts with STX, ends
with ETX, and carries a trailing checksum byte equal to the XOR of every
byte between STX and the checksum byte. -/
theorem frame_parse_roundtrip (cmd : Nat) (s : List Nat)
    (_hc : cmd < 256) (_hs : ∀ b ∈ s, b < 256) :
    Codec.parseResponse (Codec.frameMessage cmd s) =
      Codec.ParseResult.ok cmd s (Codec.frameMessage cmd s) ∧
    (Codec.frameMessage cmd s).head? = some Codec.STX ∧
    (Codec.frameMessage cmd s).getLast? = some Codec.ETX ∧
    (Codec.frameMessage cmd s).dropLast.getLastD 0 =
      Codec.computeChecksum (((Codec.frameMessage cmd s).drop 1).dropLast.dropLast) := by
  have hfm : Codec.frameMessage cmd s
      = 2 :: cmd :: (s ++ [Codec.computeChecksum (cmd :: s), 3]) := rfl
  have hhead : (Codec.frameMessage cmd s).head? = some 2 := rfl
  have hlast : (Codec.frameMessage cmd s).getLast? = some 3 := by
    rw [hfm]; exact getLast?_cons_cons_append_two _ _ _ _ _
  have hrecv : (Codec.frameMessage cmd s).dropLast.getLastD 0
      = Codec.computeChecksum (cmd :: s) := by
    rw [hfm]; exact dropLast_getLastD_cons_cons _ _ _ _ _ _
  have hexp : ((Codec.frameMessage cmd s).drop 1).dropLast.dropLast = cmd :: s := by
    rw [hfm]
    exact dropLast_cons_append_two _ _ _ _
  refine ⟨?_, hhead, hlast, ?_⟩
  · rw [hfm]
    unfold Codec.parseResponse
    rw [if_neg (by simp only [List.length_cons, List.length_append]; omega)]
    rw [if_neg (not_not_intro
      ⟨rfl, getLast?_cons_cons_append_two (2 : Nat) cmd s _ 3⟩)]
    dsimp only
    simp only [List.drop_succ_cons, List.drop_zero, List.headD_cons,
      dropLast_cons_append_two, dropLast_append_two, dropLast_getLastD_cons_cons]
    rw [if_neg (by simp)]
  · rw [hrecv]; exact (congrArg Codec.computeChecksum hexp).symm

/-- **C1 witness.** The round-trip at command `0x31` and payload
`[0x41, 0x42, 0x03]` (a payload containing the ETX byte). -/
theorem frame_parse_roundtrip_witness :
    (0x31 : Nat) < 256 ∧ (∀ b ∈ [0x41, 0x42, 0x03], b < 256) ∧
    Codec.parseResponse (Codec.frameMessage 0x31 [0x41, 0x42, 0x03]) =
      Codec.ParseResult.ok 0x31 [0x41, 0x42, 0x03]
        (Codec.frameMessage 0x31 [0x41, 0x42, 0x03]) :=
  ⟨by decide, by decide,
    (frame_parse_roundtrip 0x31 [0x41, 0x42, 0x03] (by decide) (by decide)).1⟩

/-- **C2.** The fiscal adapter's state guards: `open_receipt` while a
receipt is open fails with the already-open error; `add_item`,
`process_payment` and `close_receipt` outside `receipt_open` fail with
the no-receipt-open error; `execute_z_report` while a receipt is open
fails with the receipt-open error — in every case without handing any
command to `_send_command` and without changing the state, so the
adapter never has two receipts open simultaneously. -/
theorem adapter_state_guards (w : Adapter.Wire) (st d pt : String) (q p t a : Rat)
    (hst : st ≠ Adapter.STATE_RECEIPT_OPEN) :
    Adapter.openReceipt Adapter.STATE_RECEIPT_OPEN w =
      ⟨false, "Receipt already open", Adapter.STATE_RECEIPT_OPEN, []⟩ ∧
    Adapter.addItem st d q p t w = ⟨false, "No receipt open", st, []⟩ ∧
    Adapter.processPayment st pt a w = ⟨false, "No receipt open", st, []⟩ ∧
    Adapter.closeReceipt st w = ⟨false, "No receipt open", st, []⟩ ∧
    Adapter.executeZReport Adapter.STATE_RECEIPT_OPEN w =
      ⟨false, "Cannot execute Z report while receipt is open",
        Adapter.STATE_RECEIPT_OPEN, []⟩ := by
  refine ⟨?_, ?_, ?_, ?_, ?_⟩
  · simp [Adapter.openReceipt]
  · simp [Adapter.addItem, hst]
  · simp [Adapter.processPayment, hst]
  · simp [Adapter.closeReceipt, hst]
  · simp [Adapter.executeZReport]

/-- **C2 witness.** The guards at the `init` state and a timed-out wire. -/
theorem adapter_state_guards_witness :
    ("init" : String) ≠ Adapter.STATE_RECEIPT_OPEN ∧
    Adapter.addItem "init" "Pizza" 1 1 22 .timeout =
      ⟨false, "No receipt open", "init", []⟩ ∧
    Adapter.openReceipt Adapter.STATE_RECEIPT_OPEN .timeout =
      ⟨false, "Receipt already open", Adapter.STATE_RECEIPT_OPEN, []⟩ :=
  ⟨by decide,
   (adapter_state_guards .timeout "init" "Pizza" "cash" 1 1 22 1 (by decide)).2.1,
   (adapter_state_guards .timeout "init" "Pizza" "cash" 1 1 22 1 (by decide)).1⟩

theorem openReceipt_fail_state (st : String) (w : Adapter.Wire) :
    (Adapter.openReceipt st w).ok = false → (Adapter.openReceipt st w).state = st := by
  unfold Adapter.openReceipt
  try dsimp only
  repeat' split
  all_goals simp

theorem addItem_state (st d : String) (q p t : Rat) (w : Adapter.Wire) :
    (Adapter.addItem st d q p t w).state = st := by
  unfold Adapter.addItem
  dsimp only
  repeat' split
  all_goals rfl

theorem processPayment_state (st pt : String) (a : Rat) (w : Adapter.Wire) :
    (Adapter.processPayment st pt a w).state = st := by
  unfold Adapter.processPayment
  dsimp only
  repeat' split
  all_goals rfl

theorem closeReceipt_fail_state (st : String) (w : Adapter.Wire) :
    (Adapter.closeReceipt st w).ok = false → (Adapter.closeReceipt st w).state = st := by
  unfold Adapter.closeReceipt
  try dsimp only
  repeat' split
  all_goals simp

theorem executeZReport_state (st : String) (w : Adapter.Wire) :
    (Adapter.executeZReport st w).state = st := by
  unfold Adapter.executeZReport
  try dsimp only
  repeat' split
  all_goals rfl

/-- **C6.** Failure atomicity of the fiscal adapter: at the driver level a
transport `Timeout` or `ConnectionError` is surfaced as a failed result
with `canRetry=true`; at the adapter level no lifecycle operation changes
`current_state` when it fails — in particular `close_receipt` on a
transport error or a non-success acknowledgement leaves the state at
`receipt_open`.  State changes only on protocol-level success
acknowledgements. -/
theorem adapter_failure_atomicity (c : Nat) (pl : List Nat) (e : String)
    (st d pt : String) (q p t a : Rat) (w : Adapter.Wire) (r : List Nat)
    (hr : Adapter.isSuccessResponse r = false) :
    (SF20Driver.sendCommand c pl .timeout).success = false ∧
    (SF20Driver.sendCommand c pl .timeout).canRetry = some true ∧
    (SF20Driver.sendCommand c pl (.sockErr e)).success = false ∧
    (SF20Driver.sendCommand c pl (.sockErr e)).canRetry = some true ∧
    ((Adapter.openReceipt st w).ok = false → (Adapter.openReceipt st w).state = st) ∧
    ((Adapter.addItem st d q p t w).ok = false → (Adapter.addItem st d q p t w).state = st) ∧
    ((Adapter.processPayment st pt a w).ok = false →
      (Adapter.processPayment st pt a w).state = st) ∧
    ((Adapter.closeReceipt st w).ok = false → (Adapter.closeReceipt st w).state = st) ∧
    ((Adapter.executeZReport st w).ok = false → (Adapter.executeZReport st w).state = st) ∧
    Adapter.closeReceipt Adapter.STATE_RECEIPT_OPEN .timeout =
      ⟨false, "Error closing receipt on SF20: Timeout waiting for response",
        Adapter.STATE_RECEIPT_OPEN, [Adapter.SF20_CMD_RECEIPT_CLOSE]⟩ ∧
    Adapter.closeReceipt Adapter.STATE_RECEIPT_OPEN (.sockErr e) =
      ⟨false, "Error closing receipt on SF20: " ++ ("Communication error: " ++ e),
        Adapter.STATE_RECEIPT_OPEN, [Adapter.SF20_CMD_RECEIPT_CLOSE]⟩ ∧
    (Adapter.closeReceipt Adapter.STATE_RECEIPT_OPEN (.resp r)).ok = false ∧
    (Adapter.closeReceipt Adapter.STATE_RECEIPT_OPEN (.resp r)).state =
      Adapter.STATE_RECEIPT_OPEN := by
  refine ⟨rfl, rfl, rfl, rfl, ?_, ?_, ?_, ?_, ?_, ?_, ?_, ?_, ?_⟩
  · exact openReceipt_fail_state st w
  · exact fun _ => addItem_state st d q p t w
  · exact fun _ => processPayment_state st pt a w
  · exact closeReceipt_fail_state st w
  · exact fun _ => executeZReport_state st w
  · simp [Adapter.closeReceipt, Adapter.sendCommand, Adapter.STATE_RECEIPT_OPEN]
  · simp [Adapter.closeReceipt, Adapter.sendCommand, Adapter.STATE_RECEIPT_OPEN]
  · simp [Adapter.closeReceipt, Adapter.sendCommand, Adapter.STATE_RECEIPT_OPEN, hr]
  · simp [Adapter.closeReceipt, Adapter.sendCommand, Adapter.STATE_RECEIPT_OPEN, hr]

/-- **C6 witness.** The atomicity facts at a NAK-style response `[0x15]`
(not a success acknowledgement). -/
theorem adapter_failure_atomicity_witness :
    Adapter.isSuccessResponse [0x15] = false ∧
    (Adapter.closeReceipt Adapter.STATE_RECEIPT_OPEN (.resp [0x15])).ok = false ∧
    (Adapter.closeReceipt Adapter.STATE_RECEIPT_OPEN (.resp [0x15])).state =
      Adapter.STATE_RECEIPT_OPEN :=
  ⟨by decide,
   (adapter_failure_atomicity 0x34 [] "reset" "init" "d" "cash" 1 1 22 1
      .timeout [0x15] (by decide)).2.2.2.2.2.2.2.2.2.2.2.1,
   (adapter_failure_atomicity 0x34 [] "reset" "init" "d" "cash" 1 1 22 1
      .timeout [0x15] (by decide)).2.2.2.2.2.2.2.2.2.2.2.2⟩

/-- **C9 counterexample.** The status query's soft-failure states are not
named `Unknown`: a timed-out status query yields the `error` state (with
`ready=false`), and an unrecognized payload yields the `init` state —
the adapter's state vocabulary has no Unknown state at all. -/
theorem status_unknown_counterexample :
    (Adapter.getStatus .timeout).state = "error" ∧
    (Adapter.getStatus .timeout).ready = false ∧
    (Adapter.parseStatusResponse [0x00]).state = "init" ∧
    (Adapter.parseStatusResponse [0x00]).ready = false ∧
    "error" ≠ "unknown" ∧ "error" ≠ "Unknown" ∧
    "init" ≠ "unknown" ∧ "init" ≠ "Unknown" := by
  decide

/-- **C9 (amended).** The status query never propagates an exception: a
timeout or connection error is caught and mapped to the `error` state
with `ready=false` and the exception text as `error_code`, and a response
matching none of the status markers maps to the `init` state with
`ready=false` rather than raising. -/
theorem status_query_soft (e : String) (r : List Nat)
    (h1 : containsSeq (strBytes "READY") r = false)
    (h2 : containsSeq (strBytes "RECEIPT_OPEN") r = false)
    (h3 : containsSeq (strBytes "Z_REQUIRED") r = false)
    (h4 : containsSeq (strBytes "MEMORY_FULL") r = false)
    (h5 : containsSeq (strBytes "ERROR") r = false) :
    Adapter.getStatus .timeout =
      ⟨Adapter.STATE_ERROR, false, some "Timeout waiting for response", 0⟩ ∧
    Adapter.getStatus (.sockErr e) =
      ⟨Adapter.STATE_ERROR, false, some ("Communication error: " ++ e), 0⟩ ∧
    Adapter.getStatus .notConnected =
      ⟨Adapter.STATE_ERROR, false, some "Not connected to fiscal printer", 0⟩ ∧
    Adapter.getStatus (.resp r) = ⟨Adapter.STATE_INIT, false, none, 0⟩ ∧
    Adapter.parseStatusResponse r = ⟨Adapter.STATE_INIT, false, none, 0⟩ := by
  have hp : Adapter.parseStatusResponse r = ⟨Adapter.STATE_INIT, false, none, 0⟩ := by
    unfold Adapter.parseStatusResponse
    rw [h1, h2, h3, h4, h5]
    rfl
  exact ⟨rfl, rfl, rfl, hp, hp⟩

/-- **C9 witness.** The soft status behaviour at the unrecognized
single-byte payload `[0x00]`. -/
theorem status_query_soft_witness :
    containsSeq (strBytes "READY") [0x00] = false ∧
    Adapter.getStatus (.resp [0x00]) = ⟨Adapter.STATE_INIT, false, none, 0⟩ :=
  ⟨by decide,
   (status_query_soft "reset" [0x00] (by decide) (by decide) (by decide)
      (by decide) (by decide)).2.2.2.1⟩

theorem ctrlLoop_failsafe (tag : SF20Driver.FCall) (l : List (Bool × String)) :
    Controller.ctrlLoop true tag l = (none, List.replicate l.length tag) := by
  induction l with
  | nil => rfl
  | cons x xs ih =>
    obtain ⟨ok, msg⟩ := x
    simp [Controller.ctrlLoop, ih, List.replicate_succ]

theorem ctrlLoop_trace_tags (fs : Bool) (tag : SF20Driver.FCall)
    (l : List (Bool × String)) :
    ∀ x ∈ (Controller.ctrlLoop fs tag l).2, x = tag := by
  induction l with
  | nil => simp [Controller.ctrlLoop]
  | cons y xs ih =>
    obtain ⟨ok, msg⟩ := y
    unfold Controller.ctrlLoop
    split
    · simp
    · intro x hx
      rcases List.mem_cons.mp hx with h | h
      · exact h
      · exact ih x h

theorem ctrlLoop_strict_fail (tag : SF20Driver.FCall) (l : List (Bool × String))
    (h : false ∈ l.map Prod.fst) :
    ∃ m, (Controller.ctrlLoop false tag l).1 = some m := by
  induction l with
  | nil => simp at h
  | cons y xs ih =>
    obtain ⟨ok, msg⟩ := y
    cases ok with
    | false => exact ⟨msg, rfl⟩
    | true =>
      simp only [List.map_cons, List.mem_cons] at h
      rcases h with h | h
      · exact absurd h.symm (by simp)
      · obtain ⟨m, hm⟩ := ih h
        exact ⟨m, by simp [Controller.ctrlLoop, hm]⟩

theorem ctrlLoop_ok (fs : Bool) (tag : SF20Driver.FCall) (l : List (Bool × String))
    (h : false ∉ l.map Prod.fst) : (Controller.ctrlLoop fs tag l).1 = none := by
  induction l with
  | nil => rfl
  | cons y xs ih =>
    obtain ⟨ok, msg⟩ := y
    cases ok with
    | false => exact absurd (by simp) h
    | true =>
      have hxs : false ∉ xs.map Prod.fst := fun hx => h (by simp [hx])
      simp [Controller.ctrlLoop, ih hxs]

theorem stepLoop_tags (tag : SF20Driver.FCall) (l : List Bool) :
    ∀ x ∈ (SF20Driver.stepLoop tag l).2, x = tag := by
  induction l with
  | nil => simp [SF20Driver.stepLoop]
  | cons b xs ih =>
    cases b with
    | false => simp [SF20Driver.stepLoop]
    | true =>
      intro x hx
      simp only [SF20Driver.stepLoop, if_pos rfl] at hx
      rcases List.mem_cons.mp hx with h | h
      · exact h
      · exact ih x h

theorem stepLoop_fst_false (tag : SF20Driver.FCall) (l : List Bool)
    (h : false ∈ l) : (SF20Driver.stepLoop tag l).1 = false := by
  induction l with
  | nil => simp at h
  | cons b xs ih =>
    cases b with
    | false => rfl
    | true =>
      rcases List.mem_cons.mp h with h' | h'
      · exact absurd h'.symm (by simp)
      · simp [SF20Driver.stepLoop, ih h']

theorem stepLoop_fst_true (tag : SF20Driver.FCall) (l : List Bool)
    (h : false ∉ l) : (SF20Driver.stepLoop tag l).1 = true := by
  induction l with
  | nil => rfl
  | cons b xs ih =>
    cases b with
    | false => exact absurd (List.mem_cons_self _ _) h
    | true =>
      have : false ∉ xs := fun hx => h (List.mem_cons_of_mem _ hx)
      simp [SF20Driver.stepLoop, ih this]

/-- **C4 counterexample.** With `fail_safe=true` and the second of two
item registrations failing, `fiscal_print_receipt` returns a result
*identical* to the run in which every item succeeded — a plain success
with no indication that the failed line was skipped, contradicting the
claim that the result indicates the skip. -/
theorem failsafe_skip_not_indicated :
    (Controller.fiscalPrintReceipt true (true, "Receipt opened")
        [(true, "Item registered"), (false, "Error adding item to SF20: timeout")] []
        (true, "1234")).1 =
      (Controller.fiscalPrintReceipt true (true, "Receipt opened")
        [(true, "Item registered"), (true, "Item registered")] []
        (true, "1234")).1 ∧
    (Controller.fiscalPrintReceipt true (true, "Receipt opened")
        [(true, "Item registered"), (false, "Error adding item to SF20: timeout")] []
        (true, "1234")).1 =
      ⟨true, "Receipt printed successfully", some "1234", false⟩ := by
  decide

/-- **C4 (amended).** With `fail_safe=true`, item and payment failures
are skipped: `close_receipt` is still invoked and, when the close
succeeds, the overall result is a plain success — identical to the
all-success run, carrying no indication of the skipped line; a
`close_receipt` failure is reported as a soft success with
`fail_safe_triggered=true` and receipt number `'ERROR'`. -/
theorem fiscal_print_receipt_failsafe (om cm : String)
    (ir pr : List (Bool × String)) (c : Bool × String)
    (hc : c.1 = false) :
    SF20Driver.FCall.closeR ∈ (Controller.fiscalPrintReceipt true (true, om) ir pr c).2 ∧
    (Controller.fiscalPrintReceipt true (true, om) ir pr c).1 =
      (Controller.fiscalPrintReceipt true (true, om) [] [] c).1 ∧
    (Controller.fiscalPrintReceipt true (true, om) ir pr (true, cm)).1 =
      ⟨true, "Receipt printed successfully", some cm, false⟩ ∧
    (Controller.fiscalPrintReceipt true (true, om) ir pr c).1 =
      ⟨true, "Receipt processed (printer error, fail-safe mode)", some "ERROR", true⟩ := by
  obtain ⟨cok, cmsg⟩ := c
  simp only at hc
  subst hc
  refine ⟨?_, ?_, ?_, ?_⟩
  · simp [Controller.fiscalPrintReceipt, ctrlLoop_failsafe]
  · simp [Controller.fiscalPrintReceipt, ctrlLoop_failsafe]
  · simp [Controller.fiscalPrintReceipt, ctrlLoop_failsafe]
  · simp [Controller.fiscalPrintReceipt, ctrlLoop_failsafe]

/-- **C4 witness.** The fail-safe behaviour at a two-line order whose
second line fails, with a failing close step `(false, "no ack")`. -/
theorem fiscal_print_receipt_failsafe_witness :
    ((false, "no ack") : Bool × String).1 = false ∧
    (Controller.fiscalPrintReceipt true (true, "Receipt opened")
        [(true, "Item registered"), (false, "boom")] [] (false, "no ack")).1 =
      ⟨true, "Receipt processed (printer error, fail-safe mode)", some "ERROR", true⟩ :=
  ⟨rfl,
   (fiscal_print_receipt_failsafe "Receipt opened" "1234"
      [(true, "Item registered"), (false, "boom")] [] (false, "no ack")
      rfl).2.2.2⟩

theorem fiscalPrintReceipt_no_cancel (fs : Bool) (o c : Bool × String)
    (ir pr : List (Bool × String)) :
    SF20Driver.FCall.cancel ∉ (Controller.fiscalPrintReceipt fs o ir pr c).2 := by
  have hirc : SF20Driver.FCall.cancel ∉ (Controller.ctrlLoop fs SF20Driver.FCall.sell ir).2 := by
    intro hx; have := ctrlLoop_trace_tags fs .sell ir _ hx; simp at this
  have hprc : SF20Driver.FCall.cancel ∉ (Controller.ctrlLoop fs SF20Driver.FCall.pay pr).2 := by
    intro hx; have := ctrlLoop_trace_tags fs .pay pr _ hx; simp at this
  unfold Controller.fiscalPrintReceipt
  split
  · simp
  · dsimp only
    split <;> try split
    all_goals try split_ifs
    all_goals
      intro hx
      simp only [List.mem_cons, List.mem_append, List.mem_singleton] at hx
      casesm* _ ∨ _
      all_goals simp_all

theorem printReceipt_item_fail (lineOks payOks : List Bool) (closeOk : Bool)
    (hl : false ∈ lineOks) :
    (SF20Driver.printReceipt true lineOks payOks closeOk).1 = "error" ∧
    ((SF20Driver.printReceipt true lineOks payOks closeOk).2).count .cancel = 1 ∧
    SF20Driver.FCall.closeR ∉ (SF20Driver.printReceipt true lineOks payOks closeOk).2 := by
  have h1 := stepLoop_fst_false .sell lineOks hl
  have htags := stepLoop_tags .sell lineOks
  have hcnt : ((SF20Driver.stepLoop .sell lineOks).2).count SF20Driver.FCall.cancel = 0 :=
    List.count_eq_zero.mpr (fun h => by have := htags _ h; simp at this)
  refine ⟨?_, ?_, ?_⟩
  · simp [SF20Driver.printReceipt, h1]
  · simp [SF20Driver.printReceipt, h1, List.count_cons, List.count_append, hcnt]
  · simp [SF20Driver.printReceipt, h1]
    intro hx
    have := htags _ hx
    simp at this

theorem printReceipt_pay_fail (goodLines payOks : List Bool) (closeOk : Bool)
    (hgl : false ∉ goodLines) (hp : false ∈ payOks) :
    (SF20Driver.printReceipt true goodLines payOks closeOk).1 = "error" ∧
    ((SF20Driver.printReceipt true goodLines payOks closeOk).2).count .cancel = 1 ∧
    SF20Driver.FCall.closeR ∉ (SF20Driver.printReceipt true goodLines payOks closeOk).2 := by
  have h1 := stepLoop_fst_true .sell goodLines hgl
  have h2 := stepLoop_fst_false .pay payOks hp
  have htagsL := stepLoop_tags .sell goodLines
  have htagsP := stepLoop_tags .pay payOks
  have hcntL : ((SF20Driver.stepLoop .sell goodLines).2).count SF20Driver.FCall.cancel = 0 :=
    List.count_eq_zero.mpr (fun h => by have := htagsL _ h; simp at this)
  have hcntP : ((SF20Driver.stepLoop .pay payOks).2).count SF20Driver.FCall.cancel = 0 :=
    List.count_eq_zero.mpr (fun h => by have := htagsP _ h; simp at this)
  refine ⟨?_, ?_, ?_⟩
  · simp [SF20Driver.printReceipt, h1, h2]
  · simp [SF20Driver.printReceipt, h1, h2, List.count_cons, List.count_append, hcntL, hcntP]
  · simp [SF20Driver.printReceipt, h1, h2]
    constructor
    · intro hx; have := htagsL _ hx; simp at this
    · intro hx; have := htagsP _ hx; simp at this

theorem printReceipt_close_fail (goodLines goodPays : List Bool)
    (hgl : false ∉ goodLines) (hgp : false ∉ goodPays) :
    (SF20Driver.printReceipt true goodLines goodPays false).1 = "error" ∧
    ((SF20Driver.printReceipt true goodLines goodPays false).2).count .cancel = 0 := by
  have h1 := stepLoop_fst_true .sell goodLines hgl
  have h2 := stepLoop_fst_true .pay goodPays hgp
  have htagsL := stepLoop_tags .sell goodLines
  have htagsP := stepLoop_tags .pay goodPays
  have hcntL : ((SF20Driver.stepLoop .sell goodLines).2).count SF20Driver.FCall.cancel = 0 :=
    List.count_eq_zero.mpr (fun h => by have := htagsL _ h; simp at this)
  have hcntP : ((SF20Driver.stepLoop .pay goodPays).2).count SF20Driver.FCall.cancel = 0 :=
    List.count_eq_zero.mpr (fun h => by have := htagsP _ h; simp at this)
  constructor
  · simp [SF20Driver.printReceipt, h1, h2]
  · simp [SF20Driver.printReceipt, h1, h2, List.count_cons, List.count_append, hcntL, hcntP]

/-- **C5 counterexample.** With `fail_safe=false` and `sell_item`
failing on line 2 of 2, the composite `fiscal_print_receipt` does abort
with an error result — but it makes *zero* `cancel_receipt` calls, not
exactly one as claimed (no branch of the controller sequence cancels);
and the driver-side composite `print_receipt` makes zero cancel calls on
a close failure. -/
theorem failstrict_cancel_counterexample :
    (Controller.fiscalPrintReceipt false (true, "Receipt opened")
        [(true, "Item registered"), (false, "boom")] [] (true, "1234")).1.success = false ∧
    ((Controller.fiscalPrintReceipt false (true, "Receipt opened")
        [(true, "Item registered"), (false, "boom")] [] (true, "1234")).2).count .cancel = 0 ∧
    (SF20Driver.printReceipt true [true, true] [true] false).1 = "error" ∧
    ((SF20Driver.printReceipt true [true, true] [true] false).2).count .cancel = 0 := by
  decide

/-- **C5 (amended).** Under the fail-strict policy the composite aborts
at the first failing step with an error result and the remaining steps
are not executed — for an item failure and for a payment failure the
close step is never reached, and a close failure itself yields the error
result — but cancellation behaves per layer: the controller's
`fiscal_print_receipt` never invokes `cancel_receipt` in *any* branch,
while the driver's `print_receipt` invokes it exactly once for an item
or payment failure and not at all for a close failure. -/
theorem print_receipt_failstrict
    (fs0 : Bool) (o0 c0 c : Bool × String) (ir0 pr0 : List (Bool × String))
    (om cm : String)
    (ir pr2 ir2 prOk : List (Bool × String))
    (lineOks payOks goodLines goodPays : List Bool) (closeOk : Bool)
    (hi : false ∈ ir.map Prod.fst)
    (hok2 : false ∉ ir2.map Prod.fst)
    (hpf : false ∈ pr2.map Prod.fst)
    (hprOk : false ∉ prOk.map Prod.fst)
    (hl : false ∈ lineOks)
    (hp : false ∈ payOks)
    (hgl : false ∉ goodLines)
    (hgp : false ∉ goodPays) :
    SF20Driver.FCall.cancel ∉ (Controller.fiscalPrintReceipt fs0 o0 ir0 pr0 c0).2 ∧
    (Controller.fiscalPrintReceipt false (true, om) ir pr0 c).1.success = false ∧
    SF20Driver.FCall.closeR ∉ (Controller.fiscalPrintReceipt false (true, om) ir pr0 c).2 ∧
    (Controller.fiscalPrintReceipt false (true, om) ir2 pr2 c).1.success = false ∧
    SF20Driver.FCall.closeR ∉ (Controller.fiscalPrintReceipt false (true, om) ir2 pr2 c).2 ∧
    (Controller.fiscalPrintReceipt false (true, om) ir2 prOk (false, cm)).1 =
      ⟨false, "Failed to close receipt: " ++ cm, none, false⟩ ∧
    (SF20Driver.printReceipt true lineOks payOks closeOk).1 = "error" ∧
    ((SF20Driver.printReceipt true lineOks payOks closeOk).2).count .cancel = 1 ∧
    SF20Driver.FCall.closeR ∉ (SF20Driver.printReceipt true lineOks payOks closeOk).2 ∧
    (SF20Driver.printReceipt true goodLines payOks closeOk).1 = "error" ∧
    ((SF20Driver.printReceipt true goodLines payOks closeOk).2).count .cancel = 1 ∧
    SF20Driver.FCall.closeR ∉ (SF20Driver.printReceipt true goodLines payOks closeOk).2 ∧
    (SF20Driver.printReceipt true goodLines goodPays false).1 = "error" ∧
    ((SF20Driver.printReceipt true goodLines goodPays false).2).count .cancel = 0 := by
  obtain ⟨m, hm⟩ := ctrlLoop_strict_fail .sell ir hi
  have habort :
      Controller.fiscalPrintReceipt false (true, om) ir pr0 c =
        (⟨false, "Item registration failed: " ++ m, none, false⟩,
          .openR :: (Controller.ctrlLoop false .sell ir).2) := by
    simp [Controller.fiscalPrintReceipt, hm]
  obtain ⟨m2, hm2⟩ := ctrlLoop_strict_fail .pay pr2 hpf
  have hir2 : (Controller.ctrlLoop false SF20Driver.FCall.sell ir2).1 = none :=
    ctrlLoop_ok false .sell ir2 hok2
  have hpabort :
      Controller.fiscalPrintReceipt false (true, om) ir2 pr2 c =
        (⟨false, "Payment failed: " ++ m2, none, false⟩,
          SF20Driver.FCall.openR :: ((Controller.ctrlLoop false .sell ir2).2 ++
            (Controller.ctrlLoop false .pay pr2).2)) := by
    simp [Controller.fiscalPrintReceipt, hir2, hm2]
  have hprok : (Controller.ctrlLoop false SF20Driver.FCall.pay prOk).1 = none :=
    ctrlLoop_ok false .pay prOk hprOk
  have hclose :
      (Controller.fiscalPrintReceipt false (true, om) ir2 prOk (false, cm)).1 =
        ⟨false, "Failed to close receipt: " ++ cm, none, false⟩ := by
    simp [Controller.fiscalPrintReceipt, hir2, hprok]
  obtain ⟨hA, hB, hC⟩ := printReceipt_item_fail lineOks payOks closeOk hl
  obtain ⟨hD, hE, hF⟩ := printReceipt_pay_fail goodLines payOks closeOk hgl hp
  obtain ⟨hG, hH⟩ := printReceipt_close_fail goodLines goodPays hgl hgp
  refine ⟨fiscalPrintReceipt_no_cancel fs0 o0 c0 ir0 pr0, ?_, ?_, ?_, ?_, hclose,
    hA, hB, hC, hD, hE, hF, hG, hH⟩
  · rw [habort]
  · rw [habort]
    intro hx
    rcases List.mem_cons.mp hx with h | h
    · simp at h
    · have := ctrlLoop_trace_tags false .sell ir _ h
      simp at this
  · rw [hpabort]
  · rw [hpabort]
    intro hx
    rcases List.mem_cons.mp hx with h | h
    · simp at h
    · rcases List.mem_append.mp h with h2 | h2
      · have := ctrlLoop_trace_tags false .sell ir2 _ h2
        simp at this
      · have := ctrlLoop_trace_tags false .pay pr2 _ h2
        simp at this

/-- **C5 witness.** The fail-strict behaviour at concrete oracles: a
two-line order whose second item fails, an all-success order whose first
payment fails, a close step failing after all-success items and
payments, and the matching driver-level oracles. -/
theorem print_receipt_failstrict_witness :
    false ∈ ([(true, "m"), (false, "boom")].map Prod.fst) ∧
    (Controller.fiscalPrintReceipt false (true, "ok")
        [(true, "m"), (false, "boom")] [] (true, "1")).1.success = false ∧
    (Controller.fiscalPrintReceipt false (true, "ok")
        [(true, "m")] [(false, "payfail")] (true, "1")).1.success = false ∧
    (Controller.fiscalPrintReceipt false (true, "ok")
        [(true, "m")] [(true, "paid")] (false, "no ack")).1 =
      ⟨false, "Failed to close receipt: " ++ "no ack", none, false⟩ ∧
    ((SF20Driver.printReceipt true [true, false] [false] true).2).count .cancel = 1 ∧
    ((SF20Driver.printReceipt true [true, true] [true, true] false).2).count .cancel = 0 :=
  ⟨by decide,
   (print_receipt_failstrict true (true, "o") (true, "1") (true, "1") [] [] "ok" "no ack"
      [(true, "m"), (false, "boom")] [(false, "payfail")] [(true, "m")] [(true, "paid")]
      [true, false] [false] [true, true] [true, true] true
      (by decide) (by decide) (by decide) (by decide) (by decide)
      (by decide) (by decide) (by decide)).2.1,
   (print_receipt_failstrict true (true, "o") (true, "1") (true, "1") [] [] "ok" "no ack"
      [(true, "m"), (false, "boom")] [(false, "payfail")] [(true, "m")] [(true, "paid")]
      [true, false] [false] [true, true] [true, true] true
      (by decide) (by decide) (by decide) (by decide) (by decide)
      (by decide) (by decide) (by decide)).2.2.2.1,
   (print_receipt_failstrict true (true, "o") (true, "1") (true, "1") [] [] "ok" "no ack"
      [(true, "m"), (false, "boom")] [(false, "payfail")] [(true, "m")] [(true, "paid")]
      [true, false] [false] [true, true] [true, true] true
      (by decide) (by decide) (by decide) (by decide) (by decide)
      (by decide) (by decide) (by decide)).2.2.2.2.2.1,
   (print_receipt_failstrict true (true, "o") (true, "1") (true, "1") [] [] "ok" "no ack"
      [(true, "m"), (false, "boom")] [(false, "payfail")] [(true, "m")] [(true, "paid")]
      [true, false] [false] [true, true] [true, true] true
      (by decide) (by decide) (by decide) (by decide) (by decide)
      (by decide) (by decide) (by decide)).2.2.2.2.2.2.2.1,
   (print_receipt_failstrict true (true, "o") (true, "1") (true, "1") [] [] "ok" "no ack"
      [(true, "m"), (false, "boom")] [(false, "payfail")] [(true, "m")] [(true, "paid")]
      [true, false] [false] [true, true] [true, true] true
      (by decide) (by decide) (by decide) (by decide) (by decide)
      (by decide) (by decide) (by decide)).2.2.2.2.2.2.2.2.2.2.2.2.2⟩

theorem dictGet_eq_none (k : String) (l : List (String × Factory.FAdapter)) :
    Factory.dictGet k l = none ↔ k ∉ l.map Prod.fst := by
  induction l with
  | nil => simp [Factory.dictGet]
  | cons e rest ih =>
    obtain ⟨k', a⟩ := e
    by_cases hk : k' = k
    · subst hk; simp [Factory.dictGet]
    · have hk2 : ¬ k = k' := fun hh => hk hh.symm
      simp [Factory.dictGet, hk, hk2, ih]

theorem dictGet_del_none (k : String) (l : List (String × Factory.FAdapter))
    (h : (l.map Prod.fst).Nodup) :
    Factory.dictGet k (Factory.dictDel k l) = none := by
  induction l with
  | nil => rfl
  | cons e rest ih =>
    obtain ⟨k', a⟩ := e
    simp only [List.map_cons, List.nodup_cons] at h
    by_cases hk : k' = k
    · subst hk
      simp only [Factory.dictDel, if_pos rfl]
      exact (dictGet_eq_none k' rest).mpr h.1
    · simp only [Factory.dictDel, if_neg hk, Factory.dictGet]
      exact ih h.2

/-- **C7.** The registry holds at most one adapter per key: a second
`create` call with the same identity returns the identical adapter (by
identity stamp — the second call's connection parameters are ignored)
and leaves the registry untouched; after `disconnect` a subsequent `get`
returns nothing; and `disconnect` on an absent key is a no-op. -/
theorem registry_single_instance (s : Factory.FactoryState) (pcid : Nat)
    (ip1 ip2 : String) (port1 t1 port2 t2 : Int)
    (hnd : (s.entries.map Prod.fst).Nodup) :
    (Factory.createFiscal (Factory.createFiscal s pcid ip1 port1 t1).2 pcid ip2 port2 t2).1 =
      (Factory.createFiscal s pcid ip1 port1 t1).1 ∧
    (Factory.createFiscal (Factory.createFiscal s pcid ip1 port1 t1).2 pcid ip2 port2 t2).2 =
      (Factory.createFiscal s pcid ip1 port1 t1).2 ∧
    Factory.getFiscal
      (Factory.disconnectFiscal (Factory.createFiscal s pcid ip1 port1 t1).2 pcid) pcid = none ∧
    (Factory.getFiscal s pcid = none → Factory.disconnectFiscal s pcid = s) := by
  cases h1 : Factory.dictGet (Factory.fiscalKey pcid) s.entries with
  | some a =>
    have hcr : Factory.createFiscal s pcid ip1 port1 t1 = (a, s) := by
      simp [Factory.createFiscal, h1]
    refine ⟨?_, ?_, ?_, ?_⟩
    · rw [hcr]; simp [Factory.createFiscal, h1, hcr]
    · rw [hcr]; simp [Factory.createFiscal, h1, hcr]
    · rw [hcr]
      simp only [Factory.getFiscal, Factory.disconnectFiscal, h1]
      exact dictGet_del_none _ _ hnd
    · intro hg
      simp [Factory.getFiscal, h1] at hg
  | none =>
    have hkey : Factory.fiscalKey pcid ∉ s.entries.map Prod.fst :=
      (dictGet_eq_none _ _).mp h1
    have hcr : Factory.createFiscal s pcid ip1 port1 t1 =
        (⟨s.nextUid, ip1, port1, t1⟩,
          ⟨(Factory.fiscalKey pcid, ⟨s.nextUid, ip1, port1, t1⟩) :: s.entries, s.nextUid + 1⟩) := by
      simp [Factory.createFiscal, h1]
    have h2 : Factory.dictGet (Factory.fiscalKey pcid)
        ((Factory.fiscalKey pcid, (⟨s.nextUid, ip1, port1, t1⟩ : Factory.FAdapter))
          :: s.entries) = some ⟨s.nextUid, ip1, port1, t1⟩ := by
      simp [Factory.dictGet]
    refine ⟨?_, ?_, ?_, ?_⟩
    · rw [hcr]; simp [Factory.createFiscal, h2]
    · rw [hcr]; simp [Factory.createFiscal, h2]
    · rw [hcr]
      simp only [Factory.getFiscal, Factory.disconnectFiscal, h2]
      exact dictGet_del_none _ _ (List.nodup_cons.mpr ⟨hkey, hnd⟩)
    · intro _
      simp [Factory.disconnectFiscal, h1]

/-- **C7 witness.** Two creates, a disconnect and a get on an initially
empty registry. -/
theorem registry_single_instance_witness :
    (([] : List (String × Factory.FAdapter)).map Prod.fst).Nodup ∧
    (Factory.createFiscal
        (Factory.createFiscal ⟨[], 0⟩ 1 "10.0.0.1" 9100 30).2 1 "10.9.9.9" 9999 5).1 =
      (Factory.createFiscal ⟨[], 0⟩ 1 "10.0.0.1" 9100 30).1 ∧
    Factory.getFiscal
      (Factory.disconnectFiscal (Factory.createFiscal ⟨[], 0⟩ 1 "10.0.0.1" 9100 30).2 1) 1 =
        none :=
  ⟨by decide,
   (registry_single_instance ⟨[], 0⟩ 1 "10.0.0.1" "10.9.9.9" 9100 30 9999 5 (by decide)).1,
   (registry_single_instance ⟨[], 0⟩ 1 "10.0.0.1" "10.9.9.9" 9100 30 9999 5 (by decide)).2.2.1⟩

theorem pyInt_intCast (n : Int) : pyInt (n : Rat) = n := by
  simp [pyInt, Rat.num_intCast, Rat.den_intCast]

theorem pyInt_cents (c : Int) : pyInt ((c : Rat) / 100 * 100) = c := by
  have h : ((c : Rat) / 100) * 100 = ((c : Int) : Rat) := by
    field_simp
  rw [h, pyInt_intCast]

theorem pyInt_nonneg (q : Rat) (h : 0 ≤ q) : pyInt q = ⌊q⌋ := by
  unfold pyInt
  rw [Rat.floor_def]
  exact Int.tdiv_eq_ediv (Rat.num_nonneg.mpr h) (Int.ofNat_nonneg _)

/-- **C3.** Evaluation of the conversion code at the claim's failing
inputs, at points where the exact-rational model of `int(.)` coincides
with the program's float run: the fiscal adapter's `add_item` computes
`int(2 * 100) = 200`, not the claimed `2 x 1000 = 2000` (the driver's
`sell_item` does scale by 1000); the conversion mechanism is truncation,
not rounding toward the nearest cent (`int(0.289 * 100)` gives 28 where
the nearest cent is 29); and the adapter's simplified `_encode_item`
drops quantity and price from the wire payload altogether.  The exactness
the claim (and §3 of the spec) requires fails in the program even on
cent-representable inputs, because the conversions truncate binary64
float products — `int(0.29 * 100) == 28` in Python — a divergence below
the resolution of this exact-rational embedding. -/
theorem sell_item_conversion_divergence :
    Adapter.addItemQuantityCents 2 = 200 ∧ (200 : Int) ≠ 2 * 1000 ∧
    SF20Driver.sellItemQuantityInt 2 = 2000 ∧
    SF20Driver.sellItemPriceInt ((289 : Rat) / 1000) = 28 ∧
    round (((289 : Rat) / 1000) * 100) = 29 ∧
    Adapter.encodeItem "Pizza Margherita" = strBytes "Pizza Margherita" := by
  refine ⟨?_, by decide, ?_, ?_, ?_, by decide⟩
  · have h : ((2 : Rat) * 100) = ((200 : Int) : Rat) := by norm_num
    unfold Adapter.addItemQuantityCents
    rw [h, pyInt_intCast]
  · have h : ((2 : Rat) * 1000) = ((2000 : Int) : Rat) := by norm_num
    unfold SF20Driver.sellItemQuantityInt
    rw [h, pyInt_intCast]
  · unfold SF20Driver.sellItemPriceInt
    have h : ((289 : Rat) / 1000 * 100) = 289 / 10 := by norm_num
    rw [h, pyInt_nonneg _ (by norm_num), Int.floor_eq_iff]
    constructor <;> norm_num
  · have h : ((289 : Rat) / 1000 * 100) = 289 / 10 := by norm_num
    rw [h, round_eq, Int.floor_eq_iff]
    constructor <;> norm_num

/-- **C10.** `apply_payment` with a missing or unrecognized `method`
encodes method code 0 — the cash code — and still sends the payment
command: the payload is byte-identical to a `'cash'` payment and exactly
one `CMD_PAYMENT` send is made; unrecognized methods are never rejected
as errors. -/
theorem payment_method_defaults_to_cash (m : String) (c : Int) (w : SF20Driver.DWire)
    (hm : m ∉ ["cash", "card", "check", "ticket", "other"])
    (hc0 : 0 ≤ c) (hc1 : c < 2 ^ 32) :
    SF20Driver.paymentTypes m = 0 ∧
    SF20Driver.applyPaymentData ((c : Rat) / 100) (some m) = some (u32be c ++ [0]) ∧
    SF20Driver.applyPaymentData ((c : Rat) / 100) (some m) =
      SF20Driver.applyPaymentData ((c : Rat) / 100) (some "cash") ∧
    SF20Driver.applyPaymentData ((c : Rat) / 100) none =
      SF20Driver.applyPaymentData ((c : Rat) / 100) (some "cash") ∧
    SF20Driver.applyPayment ((c : Rat) / 100) (some m) w =
      some ⟨[(SF20Driver.CMD_PAYMENT, u32be c ++ [0])],
        SF20Driver.sendCommand SF20Driver.CMD_PAYMENT (u32be c ++ [0]) w⟩ := by
  simp only [List.mem_cons, List.not_mem_nil, or_false, not_or] at hm
  obtain ⟨hm1, hm2, hm3, hm4, hm5⟩ := hm
  have h0 : SF20Driver.paymentTypes m = 0 := by
    unfold SF20Driver.paymentTypes
    rw [if_neg hm1, if_neg hm2, if_neg hm3, if_neg hm4, if_neg hm5]
  have hpack : packU32BE (pyInt ((c : Rat) / 100 * 100)) = some (u32be c) := by
    rw [pyInt_cents]
    unfold packU32BE
    rw [if_pos ⟨hc0, hc1⟩]
  have hdata : SF20Driver.applyPaymentData ((c : Rat) / 100) (some m) =
      some (u32be c ++ [0]) := by
    unfold SF20Driver.applyPaymentData
    rw [hpack]
    simp [h0]
  have hcash : SF20Driver.applyPaymentData ((c : Rat) / 100) (some "cash") =
      some (u32be c ++ [0]) := by
    unfold SF20Driver.applyPaymentData
    rw [hpack]
    simp [SF20Driver.paymentTypes]
  refine ⟨h0, hdata, hcash ▸ hdata, ?_, ?_⟩
  · rw [hcash]
    unfold SF20Driver.applyPaymentData
    rw [hpack]
    simp [SF20Driver.paymentTypes]
  · unfold SF20Driver.applyPayment
    rw [hdata]
    rfl

/-- **C10 witness.** The cash fallback at method `'bitcoin'` and an
amount of 5.00 (500 cents), over a timed-out wire. -/
theorem payment_method_defaults_to_cash_witness :
    ("bitcoin" : String) ∉ ["cash", "card", "check", "ticket", "other"] ∧
    SF20Driver.paymentTypes "bitcoin" = 0 ∧
    SF20Driver.applyPaymentData ((500 : Int) / 100 : Rat) (some "bitcoin") =
      some (u32be 500 ++ [0]) :=
  ⟨by decide,
   (payment_method_defaults_to_cash "bitcoin" 500 .timeout
      (by decide) (by decide) (by decide)).1,
   (payment_method_defaults_to_cash "bitcoin" 500 .timeout
      (by decide) (by decide) (by decide)).2.1⟩

theorem pyFormatF0_two : ESCPOS.pyFormatF0 2 = "2" := by
  unfold ESCPOS.pyFormatF0 ESCPOS.roundHalfEven
  norm_num
  rfl

set_option maxRecDepth 40000 in
/-- **C8.** For the order `{header: "COMANDA", items: [{description:
"Pizza", quantity: 2, notes: "no onion"}]}` at width 32, the built
document contains the item line `"2x Pizza"` immediately followed on the
next printed line by the indented `"  no onion"` line; the items block is
bounded by separator lines of exactly 32 dashes; every text line (after
stripping the ESC/POS command prefixes) is at most 32 bytes; and the
document ends with three line feeds. -/
theorem comanda_document_layout :
    containsSeq (strBytes "2x Pizza" ++ [0x0A] ++ strBytes "  no onion" ++ [0x0A])
      (ESCPOS.buildComandaDocument 32 ESCPOS.exampleComanda) = true ∧
    containsSeq
      (strBytes (ESCPOS.separatorLine 32) ++ [0x0A] ++ ESCPOS.CMD_BOLD_ON ++
        (strBytes (pyLjust "Items" 32)).take 32 ++ [0x0A] ++ ESCPOS.CMD_BOLD_OFF ++
        strBytes "2x Pizza" ++ [0x0A] ++ strBytes "  no onion" ++ [0x0A] ++
        strBytes (ESCPOS.separatorLine 32) ++ [0x0A])
      (ESCPOS.buildComandaDocument 32 ESCPOS.exampleComanda) = true ∧
    strBytes (ESCPOS.separatorLine 32) = List.replicate 32 45 ∧
    (∀ l ∈ ESCPOS.splitLF
        (ESCPOS.stripCmds (ESCPOS.buildComandaDocument 32 ESCPOS.exampleComanda)),
      l.length ≤ 32) ∧
    (ESCPOS.buildComandaDocument 32 ESCPOS.exampleComanda).drop
        ((ESCPOS.buildComandaDocument 32 ESCPOS.exampleComanda).length - 3) =
      [0x0A, 0x0A, 0x0A] := by
  have hdoc : ESCPOS.buildComandaDocument 32 ESCPOS.exampleComanda =
      ESCPOS.CMD_INIT ++ ESCPOS.CMD_ALIGN_CENTER ++
      ESCPOS.CMD_SIZE_DOUBLE ++ ESCPOS.CMD_BOLD_ON ++
      strBytes "COMANDA" ++ ESCPOS.LF ++
      ESCPOS.CMD_BOLD_OFF ++ ESCPOS.CMD_SIZE_NORMAL ++
      strBytes (ESCPOS.separatorLine 32) ++ ESCPOS.LF ++
      ESCPOS.CMD_ALIGN_LEFT ++
      strBytes "Order: ???" ++ ESCPOS.LF ++
      strBytes (ESCPOS.separatorLine 32) ++ ESCPOS.LF ++
      ESCPOS.CMD_BOLD_ON ++
      (strBytes (pyLjust "Items" 32)).take 32 ++ ESCPOS.LF ++
      ESCPOS.CMD_BOLD_OFF ++
      ((strBytes ("2" ++ "x" ++ " " ++ "Pizza")).take 32 ++ ESCPOS.LF ++
        ((strBytes ("  " ++ "no onion")).take 32 ++ ESCPOS.LF)) ++
      strBytes (ESCPOS.separatorLine 32) ++ ESCPOS.LF ++
      ESCPOS.LF ++ ESCPOS.LF ++ ESCPOS.LF := by
    unfold ESCPOS.buildComandaDocument ESCPOS.exampleComanda
    simp only [ESCPOS.itemLines, pyFormatF0_two]
    rfl
  rw [hdoc]
  decide
